import Mathlib

/-!
Shallow embedding of `programs/poke-dex/src/lib.rs` (an Anchor program
scaffold) and verification of its specified properties.

The Rust source declares a fixed program id, a single instruction handler

  pub fn initialize(ctx: Context<Initialize>) -> Result<()> {
      msg!("Greetings from: {:?}", ctx.program_id);
      Ok(())
  }

and an empty accounts struct `Initialize {}`.  The embedding models the
host-visible effects of an invocation: the returned `Result`, the log
lines emitted via `msg!`, and the (untouched) account store.
-/

/-- A Solana public key.  `solana_sdk`'s `Pubkey` renders as its base-58
string for both `Display` and `Debug`; we carry that rendering directly. -/
structure Pubkey where
  base58 : String
deriving DecidableEq, Repr

/-- The `Debug` (`{:?}`) rendering of a `Pubkey`, as produced by the
`fmt::Debug` impl in `solana_sdk` (the base-58 string itself). -/
def Pubkey.debugFmt (p : Pubkey) : String := p.base58

/-- The program id fixed at build time by
`declare_id!("E6rus72f4agDRe7Ue5aYfEdfzFiFphnxKozj46eDCfNT")`. -/
def declaredId : Pubkey :=
  ⟨"E6rus72f4agDRe7Ue5aYfEdfzFiFphnxKozj46eDCfNT"⟩

/-- An account visible to an invocation (modelling `AccountInfo`):
its address, lamport balance, data bytes, owner and executable flag. -/
structure AccountInfo where
  key : Pubkey
  lamports : Nat
  data : List Nat
  owner : Pubkey
  executable : Bool
deriving DecidableEq, Repr

/-- The accounts struct of the `initialize` instruction.  In the source it
is `#[derive(Accounts)] pub struct Initialize {}`: no fields at all. -/
structure Initialize where
deriving DecidableEq, Repr

/-- The invocation context handed to the handler by the Anchor runtime
(modelling `anchor_lang::context::Context<Initialize>`): the invoking
program's id, the deserialized accounts struct, any remaining accounts,
and the bump seeds found during constraint validation. -/
structure Context where
  program_id : Pubkey
  accounts : Initialize
  remaining_accounts : List AccountInfo
  bumps : List (String × Nat)
deriving DecidableEq, Repr

/-- An error value of Anchor's `Result<()>` error type.  The scaffold never
constructs one, but the type is part of the handler's signature. -/
inductive ProgramError where
  | anchorError (code : Nat) (message : String)
deriving DecidableEq, Repr

/-- The host-visible chain state an invocation can affect: the persistent
account store (address ↦ data bytes) and the transaction log. -/
structure ChainState where
  store : List (Pubkey × List Nat)
  log : List String
deriving DecidableEq, Repr

/-- The effect of the `msg!` macro: append one line to the transaction log. -/
def ChainState.emit (st : ChainState) (line : String) : ChainState :=
  { st with log := st.log ++ [line] }

/-- The outcome of an invocation: the handler's returned `Result` and the
chain state afterwards. -/
structure Outcome where
  result : Except ProgramError Unit
  state : ChainState
deriving Repr

/-- The `initialize` handler, translated from the source: it logs
`"Greetings from: {:?}"` applied to `ctx.program_id` and returns `Ok(())`.
It neither reads nor writes the account store. -/
def handleInitialize (ctx : Context) (st : ChainState) : Outcome :=
  { result := Except.ok ()
    state := st.emit ("Greetings from: " ++ Pubkey.debugFmt ctx.program_id) }

/-- The lines an invocation of `initialize` appends to the transaction log
(the log after the call, minus the log that was already there). -/
def emittedLog (ctx : Context) (st : ChainState) : List String :=
  ((handleInitialize ctx st).state.log).drop st.log.length

/-- The externally invocable operations of the program.  The
`#[program] mod poke_dex` block contains exactly one handler, carrying no
instruction-data arguments. -/
inductive Instruction where
  | initIx
deriving DecidableEq, Repr

/-- Dispatch of a decoded instruction to its handler, as generated by the
`#[program]` macro for the single-instruction module. -/
def dispatch : Instruction → Context → ChainState → Outcome
  | Instruction.initIx => handleInitialize

/-- Invoke `initialize` `n` times in sequence from a fixed context,
threading the chain state through. -/
def invokeN : Nat → Context → ChainState → ChainState
  | 0, _, st => st
  | n + 1, ctx, st => invokeN n ctx (handleInitialize ctx st).state

/-- Helper: an invocation emits exactly the one greeting line. -/
lemma emittedLog_eq (ctx : Context) (st : ChainState) :
    emittedLog ctx st = ["Greetings from: " ++ Pubkey.debugFmt ctx.program_id] := by
  simp [emittedLog, handleInitialize, ChainState.emit, List.drop_left]

/-- Helper: appending the empty string on the right is the identity. -/
lemma string_append_empty (s : String) : s ++ "" = s := by
  apply congrArg String.mk
  exact List.append_nil s.data

/-- C1: for every invocation context and prior chain state accepted by the
scaffold, `initialize` returns `Ok(())`; its error branch is unreachable. -/
theorem init_always_ok (ctx : Context) (st : ChainState) :
    (handleInitialize ctx st).result = Except.ok () := rfl

/-- C2: every invocation of `initialize` emits exactly one log line, and
that line contains the invoking program's identifier exactly as supplied
in the invocation context (as a contiguous substring). -/
theorem init_emits_one_line_with_id (ctx : Context) (st : ChainState) :
    ∃ line : String, emittedLog ctx st = [line] ∧
      ∃ before after : String, line = before ++ ctx.program_id.base58 ++ after := by
  refine ⟨"Greetings from: " ++ Pubkey.debugFmt ctx.program_id,
    emittedLog_eq ctx st, "Greetings from: ", "", ?_⟩
  rw [string_append_empty]
  rfl

/-- C3: `initialize` creates, reads and mutates no account or persistent
data state: the account store after the call equals the store before it
(the chain state changes only in its log component). -/
theorem init_preserves_store (ctx : Context) (st : ChainState) :
    (handleInitialize ctx st).state.store = st.store ∧
      (handleInitialize ctx st).state = { st with log := st.log ++ emittedLog ctx st } := by
  refine ⟨rfl, ?_⟩
  rw [emittedLog_eq]
  rfl

/-- C4: the declared program identifier is the fixed build-time address
`E6rus72f4agDRe7Ue5aYfEdfzFiFphnxKozj46eDCfNT`, and one invocation of
`initialize` from a fresh state yields a success result and one log entry
referencing that identifier. -/
theorem declared_id_and_single_invocation :
    declaredId.base58 = "E6rus72f4agDRe7Ue5aYfEdfzFiFphnxKozj46eDCfNT" ∧
      (handleInitialize ⟨declaredId, {}, [], []⟩ ⟨[], []⟩).result = Except.ok () ∧
      emittedLog ⟨declaredId, {}, [], []⟩ ⟨[], []⟩ =
        ["Greetings from: " ++ declaredId.base58] := by
  refine ⟨rfl, rfl, ?_⟩
  rw [emittedLog_eq]
  rfl

/-- C5: invoking `initialize` `n` times in sequence from a fixed context
appends `n` identical greeting lines to the log, leaves the account store
unchanged, and each individual call returns the same success result. -/
theorem init_idempotent_effect (n : Nat) (ctx : Context) (st : ChainState) :
    (invokeN n ctx st).store = st.store ∧
      (invokeN n ctx st).log =
        st.log ++ List.replicate n ("Greetings from: " ++ Pubkey.debugFmt ctx.program_id) ∧
      ∀ st' : ChainState, (handleInitialize ctx st').result = Except.ok () := by
  induction n generalizing st with
  | zero => exact ⟨rfl, by simp [invokeN], fun _ => rfl⟩
  | succ n ih =>
    obtain ⟨hstore, hlog, hok⟩ := ih ((handleInitialize ctx st).state)
    refine ⟨hstore, ?_, fun _ => rfl⟩
    rw [invokeN, hlog]
    simp [handleInitialize, ChainState.emit, List.replicate_succ]

/-- C6: the program's external surface is exactly the one operation
`initialize`, dispatched from the sole instruction variant, which carries
no instruction-data arguments; its accounts struct `Initialize` is an
empty container, all of whose values are equal. -/
theorem single_instruction_surface :
    (∀ i : Instruction, i = Instruction.initIx) ∧
      dispatch Instruction.initIx = handleInitialize ∧
      ∀ a b : Initialize, a = b := by
  refine ⟨fun i => ?_, rfl, fun a b => rfl⟩
  cases i
  rfl

/-- C7: the log line emitted by `initialize` has the exact form
`"Greetings from: "` followed by the `Debug` rendering of the context's
`program_id`, and is not the bare identifier rendering alone. -/
theorem emitted_line_exact_form (ctx : Context) (st : ChainState) :
    emittedLog ctx st = ["Greetings from: " ++ Pubkey.debugFmt ctx.program_id] ∧
      "Greetings from: " ++ Pubkey.debugFmt ctx.program_id ≠
        Pubkey.debugFmt ctx.program_id := by
  refine ⟨emittedLog_eq ctx st, fun h => ?_⟩
  have hlen := congrArg String.length h
  rw [String.length_append] at hlen
  rw [show ("Greetings from: ").length = 16 from rfl] at hlen
  omega

/-- C8: `initialize` is deterministic: two invocations from identical
contexts return equal results and emit identical log output, whatever the
prior chain states were. -/
theorem init_deterministic (c₁ c₂ : Context) (s₁ s₂ : ChainState)
    (h : c₁ = c₂) :
    (handleInitialize c₁ s₁).result = (handleInitialize c₂ s₂).result ∧
      emittedLog c₁ s₁ = emittedLog c₂ s₂ := by
  subst h
  exact ⟨rfl, by rw [emittedLog_eq, emittedLog_eq]⟩

/-- Witness for C8 at a pair of concrete equal contexts and distinct
prior states. -/
theorem init_deterministic_witness :
    (handleInitialize ⟨declaredId, {}, [], []⟩ ⟨[], []⟩).result =
        (handleInitialize ⟨declaredId, {}, [], []⟩ ⟨[], ["old line"]⟩).result ∧
      emittedLog ⟨declaredId, {}, [], []⟩ ⟨[], []⟩ =
        emittedLog ⟨declaredId, {}, [], []⟩ ⟨[], ["old line"]⟩ :=
  init_deterministic ⟨declaredId, {}, [], []⟩ ⟨declaredId, {}, [], []⟩
    ⟨[], []⟩ ⟨[], ["old line"]⟩ rfl

/-- C9: the result and log output of `initialize` depend only on the
`program_id` field of the context: contexts agreeing on `program_id` but
differing in any other context data produce equal results and identical
emitted log lines. -/
theorem init_noninterference (c₁ c₂ : Context) (s₁ s₂ : ChainState)
    (h : c₁.program_id = c₂.program_id) :
    (handleInitialize c₁ s₁).result = (handleInitialize c₂ s₂).result ∧
      emittedLog c₁ s₁ = emittedLog c₂ s₂ := by
  refine ⟨rfl, ?_⟩
  rw [emittedLog_eq, emittedLog_eq, h]

/-- Witness for C9 at two concrete contexts sharing a `program_id` but
differing in their remaining accounts and bump seeds. -/
theorem init_noninterference_witness :
    (handleInitialize ⟨declaredId, {}, [], []⟩ ⟨[], []⟩).result =
        (handleInitialize ⟨declaredId, {},
            [⟨⟨"someAccount"⟩, 5, [1, 2], declaredId, false⟩], [("b", 255)]⟩
          ⟨[(⟨"someAccount"⟩, [1, 2])], []⟩).result ∧
      emittedLog ⟨declaredId, {}, [], []⟩ ⟨[], []⟩ =
        emittedLog ⟨declaredId, {},
            [⟨⟨"someAccount"⟩, 5, [1, 2], declaredId, false⟩], [("b", 255)]⟩
          ⟨[(⟨"someAccount"⟩, [1, 2])], []⟩ :=
  init_noninterference ⟨declaredId, {}, [], []⟩
    ⟨declaredId, {}, [⟨⟨"someAccount"⟩, 5, [1, 2], declaredId, false⟩], [("b", 255)]⟩
    ⟨[], []⟩ ⟨[(⟨"someAccount"⟩, [1, 2])], []⟩ rfl
